import Mathlib

/-!
Shallow embedding of `bibt/gcp/bq/classes.py` (the `Client` facade of
bibt-gcp-bq) and proofs of the specified properties.

The vendor SDK (`google.cloud.bigquery`) is modelled as an abstract handle
`BQClient` whose operations are arbitrary functions; Python exceptions are
modelled with `Except PyExc`; Python dict mutation is modelled by explicit
state passing (each wrapper returns the final state of every mapping it
mutates); logging is modelled as an emitted list of `LogLine`s.
-/

set_option maxHeartbeats 1000000

namespace BQ

/-- A schema description (`google.cloud.bigquery.schema`): modelled as the
list of column names of the table. -/
abbrev Schema := List String

/-- A table handle as returned by `client.get_table`: an identifier plus
its schema. -/
structure Table where
  tableId : String
  schema : Schema
  deriving DecidableEq, Repr

/-- The Python exceptions relevant to this wrapper: `BadRequest` (from
`google.api_core.exceptions`), `SystemError`, `NotFound`, and a catch-all
for any other exception class. -/
inductive PyExc where
  | badRequest (msg : String)
  | systemError (msg : String)
  | notFound (msg : String)
  | other (msg : String)
  deriving DecidableEq, Repr

/-- The message payload of an exception. -/
def excMessage : PyExc → String
  | .badRequest m => m
  | .systemError m => m
  | .notFound m => m
  | .other m => m

/-- One emitted log line. `_LOGGER.error(job.errors)` logs a list of error
details; the other levels log strings. -/
inductive LogLine where
  | error (errs : List String)
  | warn (s : String)
  | info (s : String)
  | debug (s : String)
  deriving DecidableEq, Repr

/-- A value stored in a config mapping (`config_params` / `query_config`):
the wrapper stores strings, booleans and parsed schemas there. -/
inductive CValue where
  | str (s : String)
  | bool (b : Bool)
  | schema (s : Schema)
  deriving DecidableEq, Repr

/-- A Python dict of config parameters, as an insertion-ordered
association list. -/
abbrev ConfigDict := List (String × CValue)

/-- A value stored in the `job_params` mapping: the wrapper stores the
source URI string, the destination `Table`, and the built
`LoadJobConfig` (itself carrying a config mapping). -/
inductive JValue where
  | str (s : String)
  | table (t : Table)
  | jobConfig (c : ConfigDict)
  deriving DecidableEq, Repr

/-- The Python `job_params` dict, as an insertion-ordered association
list. -/
abbrev JobDict := List (String × JValue)

/-- Python dict assignment `d[k] = v`: if the key exists its value is
replaced in place (keeping insertion order), otherwise the pair is
appended. -/
def setKey {α : Type} : List (String × α) → String → α → List (String × α)
  | [], k, v => [(k, v)]
  | (k', v') :: rest, k, v =>
      if k' = k then (k, v) :: rest else (k', v') :: setKey rest k v

/-- Python dict lookup `d.get(k)`. -/
def getKey {α : Type} : List (String × α) → String → Option α
  | [], _ => none
  | (k', v) :: rest, k => if k' = k then some v else getKey rest k

/-- Python membership test `k in d`. -/
def hasKey {α : Type} (d : List (String × α)) (k : String) : Bool :=
  (getKey d k).isSome

/-- The keys of a dict, in insertion order. -/
def keysOf {α : Type} (d : List (String × α)) : List String :=
  d.map Prod.fst

/-- Python `dict(pairs)`: build a dict by assigning each pair in order. -/
def dictOfPairs (ps : List (String × CValue)) : ConfigDict :=
  ps.foldl (fun d kv => setKey d kv.1 kv.2) []

/-- A load job as returned by `client.load_table_from_uri`: its
`result()` outcome and its `errors` detail list. -/
structure LoadJob where
  result : Except PyExc Unit
  errors : List String

/-- The result set of a query job: the result schema column names and the
rows (each a list of values aligned with the schema). -/
structure ResultSet where
  schema : List String
  rows : List (List CValue)
  deriving DecidableEq, Repr

/-- A query job as returned by `client.query`: its `result()` outcome. -/
structure QueryJob where
  result : Except PyExc ResultSet

/-- The vendor SDK handle held by the wrapper (`self._client`), modelled
abstractly by its four operations used in `classes.py`. -/
structure BQClient where
  get_table : String → Except PyExc Table
  schema_from_json : String → Except PyExc Schema
  load_table_from_uri : JobDict → LoadJob
  query : String → Option ConfigDict → QueryJob

namespace WriteDisposition

/-- `bigquery.WriteDisposition.WRITE_APPEND`. -/
def WRITE_APPEND : String := "WRITE_APPEND"

/-- `bigquery.WriteDisposition.WRITE_TRUNCATE`. -/
def WRITE_TRUNCATE : String := "WRITE_TRUNCATE"

end WriteDisposition

namespace SourceFormat

/-- `bigquery.SourceFormat.NEWLINE_DELIMITED_JSON`. -/
def NEWLINE_DELIMITED_JSON : String := "NEWLINE_DELIMITED_JSON"

end SourceFormat

/-- `Client.get_schema` (classes.py lines 32-46): fetch the table named
`"bq_project.dataset.table"` from the handle and return its schema; any
lookup error propagates. -/
def get_schema (c : BQClient) (bq_project dataset table : String) :
    Except PyExc Schema :=
  match c.get_table (bq_project ++ "." ++ dataset ++ "." ++ table) with
  | .ok t => .ok t.schema
  | .error e => .error e

/-- `Client._monitor_job` (classes.py lines 48-62): await `job.result()`;
on `BadRequest`, log `job.errors` and raise
`SystemError("Import failed with BadRequest exception. See error data in logs.")`;
any other exception propagates; on success return normally.
Returns the outcome together with the emitted log. -/
def _monitor_job (job : LoadJob) : Except PyExc Unit × List LogLine :=
  match job.result with
  | .ok _ => (.ok (), [])
  | .error (.badRequest _) =>
      (.error (.systemError
          "Import failed with BadRequest exception. See error data in logs."),
        [LogLine.error job.errors])
  | .error e => (.error e, [])

/-- `Client._build_load_job_config` (classes.py lines 145-146): wrap the
assembled kwargs into a `LoadJobConfig`; modelled as carrying the config
mapping itself. -/
def _build_load_job_config (kwargs : ConfigDict) : ConfigDict :=
  kwargs

/-- `Client._submit_load_job` (classes.py lines 148-157): submit the load
job with the given kwargs; when `await_result` is true monitor it and log
completion. Returns (outcome, log, list of load submissions made). -/
def _submit_load_job (c : BQClient) (await_result : Bool) (kwargs : JobDict) :
    Except PyExc Unit × List LogLine × List JobDict :=
  let job := c.load_table_from_uri kwargs
  if await_result then
    let m := _monitor_job job
    match m.1 with
    | .ok _ => (.ok (), m.2 ++ [LogLine.info "Upload complete."], [kwargs])
    | .error e => (.error e, m.2, [kwargs])
  else
    (.ok (), [], [kwargs])

/-- classes.py lines 107-122: if a schema path is given, warn when
autodetect is also set, then try `schema_from_json`; on success store the
schema in `config_params` under `"schema"`, on any exception log a
warning and continue with `config_params` unchanged. -/
def buildSchemaStep (c : BQClient) (autodetect_schema : Bool)
    (schema_json_path : Option String) (config_params : ConfigDict) :
    ConfigDict × List LogLine :=
  match schema_json_path with
  | none => (config_params, [])
  | some p =>
      let wlog :=
        (if autodetect_schema then
          [LogLine.warn
            "You currently have autodetect_schema set to True while also specifying a schema. Consider setting autodetect_schema to False to avoid type inference conflicts."]
        else []) ++ [LogLine.debug "Trying to build schema..."]
      match c.schema_from_json p with
      | .ok s =>
          (setKey config_params "schema" (.schema s),
            wlog ++ [LogLine.info "Schema built."])
      | .error e =>
          (config_params,
            wlog ++ [LogLine.warn ("Failed to build schema: " ++ excMessage e)])

/-- classes.py lines 107-131: the full assembly of `config_params` in
`upload_gcs_json`: the optional schema step, then `write_disposition`
from `append`, `source_format`, `ignore_unknown_values` and `autodetect`,
each assignment overwriting any existing value under the same key. -/
def assembleConfig (c : BQClient) (append ignore_unknown autodetect_schema : Bool)
    (schema_json_path : Option String) (config_params : ConfigDict) :
    ConfigDict × List LogLine :=
  let s := buildSchemaStep c autodetect_schema schema_json_path config_params
  let cp1 := setKey s.1 "write_disposition"
    (.str (if append then WriteDisposition.WRITE_APPEND
           else WriteDisposition.WRITE_TRUNCATE))
  let cp2 := setKey cp1 "source_format" (.str SourceFormat.NEWLINE_DELIMITED_JSON)
  let cp3 := setKey cp2 "ignore_unknown_values" (.bool ignore_unknown)
  let cp4 := setKey cp3 "autodetect" (.bool autodetect_schema)
  (cp4, s.2)

/-- The observable outcome of one `upload_gcs_json` call: the returned or
raised value, the final states of the two mutated mappings, the emitted
log, and the list of load-job submissions made to the handle. -/
structure UploadResult where
  ret : Except PyExc Unit
  config_params : ConfigDict
  job_params : JobDict
  log : List LogLine
  loadCalls : List JobDict

/-- `Client.upload_gcs_json` (classes.py lines 64-143): build the source
URI and table reference, assemble `config_params`, set `source_uris` in
`job_params`, resolve `destination` via `get_table` (an error there
propagates, before any load job is submitted), build the job config, and
submit the load job. -/
def upload_gcs_json (c : BQClient)
    (bucket_name blob_name bq_project dataset table : String)
    (append ignore_unknown autodetect_schema : Bool)
    (schema_json_path : Option String) (await_result : Bool)
    (config_params : ConfigDict) (job_params : JobDict) : UploadResult :=
  let source_uri := "gs://" ++ bucket_name ++ "/" ++ blob_name
  let table_ref := bq_project ++ "." ++ dataset ++ "." ++ table
  let ac := assembleConfig c append ignore_unknown autodetect_schema
    schema_json_path config_params
  let jp1 := setKey job_params "source_uris" (.str source_uri)
  match c.get_table table_ref with
  | .error e =>
      { ret := .error e, config_params := ac.1, job_params := jp1,
        log := ac.2, loadCalls := [] }
  | .ok tbl =>
      let jp2 := setKey jp1 "destination" (.table tbl)
      let jp3 := setKey jp2 "job_config" (.jobConfig (_build_load_job_config ac.1))
      let logs := ac.2 ++
        [LogLine.info ("Submitting job to upload [" ++ source_uri ++ "] to ["
            ++ table_ref ++ "]..."),
          LogLine.debug "BigQuery load job params"]
      let s := _submit_load_job c await_result jp3
      { ret := s.1, config_params := ac.1, job_params := jp3,
        log := logs ++ s.2.1, loadCalls := s.2.2 }

/-- Convert a result set to the list of dicts returned by `query`:
`dict(row.items())` for each row, in order. -/
def rowsToJson (rs : ResultSet) : List ConfigDict :=
  rs.rows.map (fun vals => dictOfPairs (rs.schema.zip vals))

/-- The observable outcome of one `query` call: the returned or raised
value (`none` models Python `None`), the final state of the mutated
`query_config` mapping, the job config actually passed to the handle, and
the emitted log. -/
structure QueryResult where
  ret : Except PyExc (Option (List ConfigDict))
  query_config : ConfigDict
  configPassed : Option ConfigDict
  log : List LogLine

/-- `Client.query` (classes.py lines 159-189): default the priority to
`"BATCH"` when not awaiting and none is set; pass a config object built
from `query_config` exactly when the mapping is non-empty; submit; when
not awaiting return `None` immediately, otherwise await the result set
and return each row as a dict keyed by column name. -/
def query (c : BQClient) (q : String) (query_config : ConfigDict)
    (await_result : Bool) : QueryResult :=
  let qc :=
    if !await_result && !(hasKey query_config "priority") then
      setKey query_config "priority" (.str "BATCH")
    else query_config
  let config : Option ConfigDict := if qc.isEmpty then none else some qc
  let job := c.query q config
  let log0 := [LogLine.info ("Sending query: " ++ q),
    LogLine.debug "Query job config"]
  if !await_result then
    { ret := .ok none, query_config := qc, configPassed := config,
      log := log0 ++ [LogLine.info "Not waiting for result of query, returning None."] }
  else
    match job.result with
    | .error e =>
        { ret := .error e, query_config := qc, configPassed := config, log := log0 }
    | .ok rs =>
        { ret := .ok (some (rowsToJson rs)), query_config := qc,
          configPassed := config,
          log := log0 ++
            [LogLine.info ("Iterating over " ++ toString rs.rows.length
                ++ " result rows..."),
              LogLine.debug "Returning results as list of dicts."] }

/-- The mutable default arguments of `upload_gcs_json`
(`config_params={}`, `job_params={}`): in Python they are evaluated once
at function definition and shared, mutated in place, across all calls
that omit them. -/
structure UploadDefaults where
  config_params : ConfigDict
  job_params : JobDict
  deriving DecidableEq, Repr

/-- One call to `upload_gcs_json` that omits `config_params` and
`job_params`, so uses (and mutates) the shared default dicts: the call
reads the current default state and the defaults afterwards hold the
mappings as mutated by the call. -/
def upload_gcs_json_call (c : BQClient)
    (bucket_name blob_name bq_project dataset table : String)
    (append ignore_unknown autodetect_schema : Bool)
    (schema_json_path : Option String) (await_result : Bool)
    (st : UploadDefaults) : UploadResult × UploadDefaults :=
  let r := upload_gcs_json c bucket_name blob_name bq_project dataset table
    append ignore_unknown autodetect_schema schema_json_path await_result
    st.config_params st.job_params
  (r, { config_params := r.config_params, job_params := r.job_params })

/-- One call to `query` that omits `query_config`, so uses (and mutates)
the shared default dict. -/
def query_call (c : BQClient) (q : String) (await_result : Bool)
    (st : ConfigDict) : QueryResult × ConfigDict :=
  let r := query c q st await_result
  (r, r.query_config)

/-- A concrete table used to instantiate the theorems. -/
def wTable : Table :=
  { tableId := "p.d.t", schema := ["a", "b"] }

/-- A concrete SDK handle used to instantiate the theorems: one known
table `p.d.t`, one parsable schema file `good.json`, load jobs that
succeed, and a query job returning two columns and one row. -/
def wClient : BQClient where
  get_table := fun n => if n = "p.d.t" then .ok wTable else .error (.notFound n)
  schema_from_json := fun p =>
    if p = "good.json" then .ok ["x"] else .error (.other "parse failure")
  load_table_from_uri := fun _ => { result := .ok (), errors := [] }
  query := fun _ _ =>
    { result := .ok { schema := ["a", "b"], rows := [[.str "u", .bool true]] } }

/-- A concrete query result set used to instantiate the theorems. -/
def wResultSet : ResultSet :=
  { schema := ["a", "b"], rows := [[.str "u", .bool true]] }

/- ----------------------------------------------------------------- -/
/- Helper lemmas about the dict operations.                          -/
/- ----------------------------------------------------------------- -/

theorem getKey_setKey_self {α : Type} (d : List (String × α)) (k : String) (v : α) :
    getKey (setKey d k v) k = some v := by
  induction d with
  | nil => simp [setKey, getKey]
  | cons hd tl ih =>
      obtain ⟨k', v'⟩ := hd
      by_cases h : k' = k <;> simp [setKey, getKey, h, ih]

theorem getKey_setKey_of_ne {α : Type} (d : List (String × α)) (k k' : String)
    (v : α) (h : k ≠ k') : getKey (setKey d k v) k' = getKey d k' := by
  induction d with
  | nil => simp [setKey, getKey, h]
  | cons hd tl ih =>
      obtain ⟨k'', v''⟩ := hd
      by_cases h2 : k'' = k
      · subst h2
        simp [setKey, getKey, h]
      · simp [setKey, getKey, h2, ih]

theorem setKey_not_mem {α : Type} (d : List (String × α)) (k : String) (v : α)
    (h : getKey d k = none) : setKey d k v = d ++ [(k, v)] := by
  induction d with
  | nil => simp [setKey]
  | cons hd tl ih =>
      obtain ⟨k', v'⟩ := hd
      by_cases h2 : k' = k
      · simp [getKey, h2] at h
      · simp [getKey, h2] at h
        simp [setKey, h2, ih h]

theorem getKey_append_singleton {α : Type} (d : List (String × α))
    (k0 k : String) (v0 : α) :
    getKey (d ++ [(k0, v0)]) k =
      match getKey d k with
      | some v => some v
      | none => if k0 = k then some v0 else none := by
  induction d with
  | nil => simp [getKey]
  | cons hd tl ih =>
      obtain ⟨k', v'⟩ := hd
      by_cases h : k' = k <;> simp [getKey, h, ih]

theorem foldl_setKey_eq_append (ps : List (String × CValue)) (acc : ConfigDict)
    (h : ∀ p ∈ ps, getKey acc p.1 = none) (hnd : (keysOf ps).Nodup) :
    ps.foldl (fun d kv => setKey d kv.1 kv.2) acc = acc ++ ps := by
  induction ps generalizing acc with
  | nil => simp
  | cons hd tl ih =>
      have hcons : keysOf (hd :: tl) = hd.1 :: keysOf tl := rfl
      rw [hcons, List.nodup_cons] at hnd
      simp only [List.foldl_cons]
      rw [setKey_not_mem acc hd.1 hd.2 (h hd (List.mem_cons_self hd tl))]
      rw [ih (acc ++ [(hd.1, hd.2)]) ?_ hnd.2]
      · simp
      · intro p hp
        rw [getKey_append_singleton, h p (List.mem_cons_of_mem hd hp)]
        have hne : hd.1 ≠ p.1 := by
          intro hcontra
          apply hnd.1
          rw [hcontra]
          exact List.mem_map_of_mem Prod.fst hp
        simp [hne]

theorem dictOfPairs_eq_self (ps : List (String × CValue))
    (hnd : (keysOf ps).Nodup) : dictOfPairs ps = ps := by
  have := foldl_setKey_eq_append ps [] (by intro p _; simp [getKey]) hnd
  simpa [dictOfPairs] using this

theorem keysOf_rowDict (schema : List String) (vals : List CValue)
    (hnd : schema.Nodup) (hlen : vals.length = schema.length) :
    keysOf (dictOfPairs (schema.zip vals)) = schema := by
  have hk : keysOf (schema.zip vals) = schema := by
    simp only [keysOf]
    exact List.map_fst_zip _ _ (le_of_eq hlen.symm)
  rw [dictOfPairs_eq_self _ (by rw [hk]; exact hnd), hk]

/- ----------------------------------------------------------------- -/
/- Helper lemmas about upload_gcs_json and _submit_load_job.         -/
/- ----------------------------------------------------------------- -/

theorem upload_config_params_eq (c : BQClient)
    (bucket_name blob_name bq_project dataset table : String)
    (append ignore_unknown autodetect_schema : Bool)
    (schema_json_path : Option String) (await_result : Bool)
    (config_params : ConfigDict) (job_params : JobDict) :
    (upload_gcs_json c bucket_name blob_name bq_project dataset table
        append ignore_unknown autodetect_schema schema_json_path await_result
        config_params job_params).config_params =
      (assembleConfig c append ignore_unknown autodetect_schema
        schema_json_path config_params).1 := by
  simp only [upload_gcs_json]
  cases c.get_table (bq_project ++ "." ++ dataset ++ "." ++ table) <;> rfl

theorem _submit_load_job_calls (c : BQClient) (await_result : Bool)
    (kwargs : JobDict) : (_submit_load_job c await_result kwargs).2.2 = [kwargs] := by
  simp only [_submit_load_job]
  cases await_result with
  | false => rfl
  | true =>
      cases h : (_monitor_job (c.load_table_from_uri kwargs)).1 <;> simp [h]

theorem getKey_assembleConfig_of_ne (c : BQClient)
    (append ignore_unknown autodetect_schema : Bool)
    (schema_json_path : Option String) (config_params : ConfigDict)
    (k : String) (h1 : k ≠ "write_disposition") (h2 : k ≠ "source_format")
    (h3 : k ≠ "ignore_unknown_values") (h4 : k ≠ "autodetect") :
    getKey (assembleConfig c append ignore_unknown autodetect_schema
        schema_json_path config_params).1 k =
      getKey (buildSchemaStep c autodetect_schema schema_json_path
        config_params).1 k := by
  simp only [assembleConfig]
  rw [getKey_setKey_of_ne _ _ _ _ (Ne.symm h4),
    getKey_setKey_of_ne _ _ _ _ (Ne.symm h3),
    getKey_setKey_of_ne _ _ _ _ (Ne.symm h2),
    getKey_setKey_of_ne _ _ _ _ (Ne.symm h1)]

/- ----------------------------------------------------------------- -/
/- Theorems for the claims.                                          -/
/- ----------------------------------------------------------------- -/

/-- Claim C1: after config assembly in `upload_gcs_json`, the
`write_disposition` key of the config mapping equals the append
disposition when `append` is true and the truncate disposition when
`append` is false, regardless of any pre-existing value under that key
in the caller-supplied `config_params`. -/
theorem upload_gcs_json_write_disposition (c : BQClient)
    (bucket_name blob_name bq_project dataset table : String)
    (append ignore_unknown autodetect_schema : Bool)
    (schema_json_path : Option String) (await_result : Bool)
    (config_params : ConfigDict) (job_params : JobDict) :
    getKey (upload_gcs_json c bucket_name blob_name bq_project dataset table
        append ignore_unknown autodetect_schema schema_json_path await_result
        config_params job_params).config_params "write_disposition" =
      some (.str (if append then WriteDisposition.WRITE_APPEND
        else WriteDisposition.WRITE_TRUNCATE)) := by
  rw [upload_config_params_eq]
  simp only [assembleConfig]
  rw [getKey_setKey_of_ne _ _ _ _ (by decide),
    getKey_setKey_of_ne _ _ _ _ (by decide),
    getKey_setKey_of_ne _ _ _ _ (by decide),
    getKey_setKey_self]

/-- Claim C2: after config assembly in `upload_gcs_json`, the
`source_format` key equals newline-delimited JSON, `ignore_unknown_values`
equals the `ignore_unknown` argument, and `autodetect` equals the
`autodetect_schema` argument, overwriting any caller-supplied values under
those keys in `config_params`. -/
theorem upload_gcs_json_format_and_flags (c : BQClient)
    (bucket_name blob_name bq_project dataset table : String)
    (append ignore_unknown autodetect_schema : Bool)
    (schema_json_path : Option String) (await_result : Bool)
    (config_params : ConfigDict) (job_params : JobDict) :
    getKey (upload_gcs_json c bucket_name blob_name bq_project dataset table
        append ignore_unknown autodetect_schema schema_json_path await_result
        config_params job_params).config_params "source_format" =
      some (.str SourceFormat.NEWLINE_DELIMITED_JSON)
    ∧ getKey (upload_gcs_json c bucket_name blob_name bq_project dataset table
        append ignore_unknown autodetect_schema schema_json_path await_result
        config_params job_params).config_params "ignore_unknown_values" =
      some (.bool ignore_unknown)
    ∧ getKey (upload_gcs_json c bucket_name blob_name bq_project dataset table
        append ignore_unknown autodetect_schema schema_json_path await_result
        config_params job_params).config_params "autodetect" =
      some (.bool autodetect_schema) := by
  rw [upload_config_params_eq]
  simp only [assembleConfig]
  refine ⟨?_, ?_, ?_⟩
  · rw [getKey_setKey_of_ne _ _ _ _ (by decide),
      getKey_setKey_of_ne _ _ _ _ (by decide), getKey_setKey_self]
  · rw [getKey_setKey_of_ne _ _ _ _ (by decide), getKey_setKey_self]
  · rw [getKey_setKey_self]

/-- Claim C3: when a monitored job fails with a bad-request error,
`_monitor_job` logs the error detail list of the job and raises a
`SystemError` with the fixed message; any other failure raised by the
job propagates unchanged. -/
theorem monitor_job_error_translation (job : LoadJob) :
    (∀ m, job.result = .error (.badRequest m) →
      _monitor_job job =
        (.error (.systemError
            "Import failed with BadRequest exception. See error data in logs."),
          [LogLine.error job.errors]))
    ∧ (∀ e, job.result = .error e → (∀ m, e ≠ PyExc.badRequest m) →
        _monitor_job job = (.error e, [])) := by
  constructor
  · intro m hm
    simp [_monitor_job, hm]
  · intro e he hne
    cases e with
    | badRequest m => exact absurd rfl (hne m)
    | systemError m => simp [_monitor_job, he]
    | notFound m => simp [_monitor_job, he]
    | other m => simp [_monitor_job, he]

/-- Witness for C3: a job failing with `BadRequest` is translated to the
fixed `SystemError` with its errors logged, and a job failing with any
other error propagates it untouched. -/
theorem monitor_job_error_translation_witness :
    _monitor_job { result := .error (.badRequest "bad"), errors := ["detail1"] } =
      (.error (.systemError
          "Import failed with BadRequest exception. See error data in logs."),
        [LogLine.error ["detail1"]])
    ∧ _monitor_job { result := .error (.other "boom"), errors := ["detail1"] } =
      (.error (.other "boom"), []) :=
  ⟨(monitor_job_error_translation
      { result := .error (.badRequest "bad"), errors := ["detail1"] }).1 "bad" rfl,
    (monitor_job_error_translation
      { result := .error (.other "boom"), errors := ["detail1"] }).2
      (.other "boom") rfl (fun _ h => nomatch h)⟩

/-- Claim C7: `get_schema` asks the handle for exactly the table named
`"{project}.{dataset}.{table}"`; on success it returns the retrieved
schema of the retrieved table, and any lookup error from the handle propagates to the
caller untranslated. -/
theorem get_schema_spec (c : BQClient) (bq_project dataset table : String) :
    (∀ tbl, c.get_table (bq_project ++ "." ++ dataset ++ "." ++ table) = .ok tbl →
      get_schema c bq_project dataset table = .ok tbl.schema)
    ∧ (∀ e, c.get_table (bq_project ++ "." ++ dataset ++ "." ++ table) = .error e →
      get_schema c bq_project dataset table = .error e) := by
  constructor <;> intro x hx <;> simp [get_schema, hx]

/-- Witness for C7: on the concrete handle, the schema of a known table is
returned and the not-found error of the handle for an unknown table is passed
through unchanged. -/
theorem get_schema_spec_witness :
    get_schema wClient "p" "d" "t" = .ok ["a", "b"]
    ∧ get_schema wClient "p" "d" "u" = .error (.notFound "p.d.u") :=
  ⟨(get_schema_spec wClient "p" "d" "t").1 wTable rfl,
    (get_schema_spec wClient "p" "d" "u").2 (.notFound "p.d.u") rfl⟩

/-- Claim C10: when the destination table lookup fails, `upload_gcs_json`
fails with the lookup error of the handle and no load job is ever submitted,
even when `autodetect_schema` is true. -/
theorem upload_gcs_json_no_table (c : BQClient)
    (bucket_name blob_name bq_project dataset table : String)
    (append ignore_unknown autodetect_schema : Bool)
    (schema_json_path : Option String) (await_result : Bool)
    (config_params : ConfigDict) (job_params : JobDict) (e : PyExc)
    (h : c.get_table (bq_project ++ "." ++ dataset ++ "." ++ table) = .error e) :
    (upload_gcs_json c bucket_name blob_name bq_project dataset table
        append ignore_unknown autodetect_schema schema_json_path await_result
        config_params job_params).ret = .error e
    ∧ (upload_gcs_json c bucket_name blob_name bq_project dataset table
        append ignore_unknown autodetect_schema schema_json_path await_result
        config_params job_params).loadCalls = [] := by
  simp [upload_gcs_json, h]

/-- Witness for C10: uploading to the unknown table `p.d.u` on the
concrete handle, with `autodetect_schema` true, fails with the not-found
error of the handle and submits no load job. -/
theorem upload_gcs_json_no_table_witness :
    (upload_gcs_json wClient "bkt" "blob.json" "p" "d" "u"
        true true true none true [] []).ret = .error (.notFound "p.d.u")
    ∧ (upload_gcs_json wClient "bkt" "blob.json" "p" "d" "u"
        true true true none true [] []).loadCalls = [] :=
  upload_gcs_json_no_table wClient "bkt" "blob.json" "p" "d" "u"
    true true true none true [] [] (.notFound "p.d.u") rfl

theorem upload_source_uris (c : BQClient)
    (bucket_name blob_name bq_project dataset table : String)
    (append ignore_unknown autodetect_schema : Bool)
    (schema_json_path : Option String) (await_result : Bool)
    (config_params : ConfigDict) (job_params : JobDict) :
    getKey (upload_gcs_json c bucket_name blob_name bq_project dataset table
        append ignore_unknown autodetect_schema schema_json_path await_result
        config_params job_params).job_params "source_uris" =
      some (.str ("gs://" ++ bucket_name ++ "/" ++ blob_name)) := by
  simp only [upload_gcs_json]
  cases c.get_table (bq_project ++ "." ++ dataset ++ "." ++ table) with
  | error e => simp [getKey_setKey_self]
  | ok tbl =>
      simp only
      rw [getKey_setKey_of_ne _ _ _ _ (by decide),
        getKey_setKey_of_ne _ _ _ _ (by decide), getKey_setKey_self]

/-- Claim C8: when the destination table resolves, the job-parameters
mapping passed to the load submission has `source_uris` equal to
`"gs://{bucket_name}/{blob_name}"`, `destination` equal to the resolved
destination table, and `job_config` holding the job-config object built
from the assembled config mapping, each overwriting any caller-supplied
value under the same key in `job_params`. -/
theorem upload_gcs_json_job_params (c : BQClient)
    (bucket_name blob_name bq_project dataset table : String)
    (append ignore_unknown autodetect_schema : Bool)
    (schema_json_path : Option String) (await_result : Bool)
    (config_params : ConfigDict) (job_params : JobDict) (tbl : Table)
    (h : c.get_table (bq_project ++ "." ++ dataset ++ "." ++ table) = .ok tbl) :
    (upload_gcs_json c bucket_name blob_name bq_project dataset table
        append ignore_unknown autodetect_schema schema_json_path await_result
        config_params job_params).loadCalls =
      [(upload_gcs_json c bucket_name blob_name bq_project dataset table
        append ignore_unknown autodetect_schema schema_json_path await_result
        config_params job_params).job_params]
    ∧ getKey (upload_gcs_json c bucket_name blob_name bq_project dataset table
        append ignore_unknown autodetect_schema schema_json_path await_result
        config_params job_params).job_params "source_uris" =
      some (.str ("gs://" ++ bucket_name ++ "/" ++ blob_name))
    ∧ getKey (upload_gcs_json c bucket_name blob_name bq_project dataset table
        append ignore_unknown autodetect_schema schema_json_path await_result
        config_params job_params).job_params "destination" =
      some (.table tbl)
    ∧ getKey (upload_gcs_json c bucket_name blob_name bq_project dataset table
        append ignore_unknown autodetect_schema schema_json_path await_result
        config_params job_params).job_params "job_config" =
      some (.jobConfig
        (upload_gcs_json c bucket_name blob_name bq_project dataset table
          append ignore_unknown autodetect_schema schema_json_path await_result
          config_params job_params).config_params) := by
  refine ⟨?_, upload_source_uris c bucket_name blob_name bq_project dataset table
    append ignore_unknown autodetect_schema schema_json_path await_result
    config_params job_params, ?_, ?_⟩
  · simp only [upload_gcs_json, h]
    exact _submit_load_job_calls c await_result _
  · simp only [upload_gcs_json, h]
    rw [getKey_setKey_of_ne _ _ _ _ (by decide), getKey_setKey_self]
  · simp only [upload_gcs_json, h, _build_load_job_config]
    rw [getKey_setKey_self]

/-- Witness for C8: the concrete upload to the known table `p.d.t`
submits exactly one load job whose parameters carry the source URI, the
resolved table and the built job config. -/
theorem upload_gcs_json_job_params_witness :
    (upload_gcs_json wClient "bkt" "blob.json" "p" "d" "t"
        true true false none true [] []).loadCalls =
      [(upload_gcs_json wClient "bkt" "blob.json" "p" "d" "t"
        true true false none true [] []).job_params]
    ∧ getKey (upload_gcs_json wClient "bkt" "blob.json" "p" "d" "t"
        true true false none true [] []).job_params "source_uris" =
      some (.str ("gs://" ++ "bkt" ++ "/" ++ "blob.json"))
    ∧ getKey (upload_gcs_json wClient "bkt" "blob.json" "p" "d" "t"
        true true false none true [] []).job_params "destination" =
      some (.table wTable)
    ∧ getKey (upload_gcs_json wClient "bkt" "blob.json" "p" "d" "t"
        true true false none true [] []).job_params "job_config" =
      some (.jobConfig
        (upload_gcs_json wClient "bkt" "blob.json" "p" "d" "t"
          true true false none true [] []).config_params) :=
  upload_gcs_json_job_params wClient "bkt" "blob.json" "p" "d" "t"
    true true false none true [] [] wTable rfl

/-- Claim C4: when `schema_json_path` is given but the schema file fails
to parse, `upload_gcs_json` still completes the submission exactly as the
same call without a schema path would (no error reaches the caller from
the parse failure), and the assembled config has no `schema` key. -/
theorem upload_gcs_json_schema_parse_failure (c : BQClient)
    (bucket_name blob_name bq_project dataset table : String)
    (append ignore_unknown autodetect_schema : Bool)
    (await_result : Bool) (config_params : ConfigDict) (job_params : JobDict)
    (p : String) (e : PyExc)
    (hp : c.schema_from_json p = .error e)
    (hcfg : hasKey config_params "schema" = false) :
    getKey (upload_gcs_json c bucket_name blob_name bq_project dataset table
        append ignore_unknown autodetect_schema (some p) await_result
        config_params job_params).config_params "schema" = none
    ∧ (upload_gcs_json c bucket_name blob_name bq_project dataset table
        append ignore_unknown autodetect_schema (some p) await_result
        config_params job_params).ret =
      (upload_gcs_json c bucket_name blob_name bq_project dataset table
        append ignore_unknown autodetect_schema none await_result
        config_params job_params).ret
    ∧ (upload_gcs_json c bucket_name blob_name bq_project dataset table
        append ignore_unknown autodetect_schema (some p) await_result
        config_params job_params).loadCalls =
      (upload_gcs_json c bucket_name blob_name bq_project dataset table
        append ignore_unknown autodetect_schema none await_result
        config_params job_params).loadCalls := by
  have hget : getKey config_params "schema" = none := by
    cases hg : getKey config_params "schema" with
    | none => rfl
    | some v => simp [hasKey, hg] at hcfg
  have hstep : (buildSchemaStep c autodetect_schema (some p) config_params).1 =
      config_params := by
    simp [buildSchemaStep, hp]
  have hac : (assembleConfig c append ignore_unknown autodetect_schema
      (some p) config_params).1 =
      (assembleConfig c append ignore_unknown autodetect_schema
        none config_params).1 := by
    simp only [assembleConfig, hstep]
    rfl
  refine ⟨?_, ?_, ?_⟩
  · rw [upload_config_params_eq,
      getKey_assembleConfig_of_ne c append ignore_unknown autodetect_schema
        (some p) config_params "schema" (by decide) (by decide) (by decide)
        (by decide), hstep, hget]
  · cases hgt : c.get_table (bq_project ++ "." ++ dataset ++ "." ++ table) with
    | error e2 => simp [upload_gcs_json, hgt]
    | ok tbl => simp [upload_gcs_json, hgt, hac]
  · cases hgt : c.get_table (bq_project ++ "." ++ dataset ++ "." ++ table) with
    | error e2 => simp [upload_gcs_json, hgt]
    | ok tbl => simp [upload_gcs_json, hgt, hac]

/-- Witness for C4: on the concrete handle, uploading with the
unparsable schema file `bad.json` behaves exactly like the same call
without a schema path, and leaves no `schema` key in the config. -/
theorem upload_gcs_json_schema_parse_failure_witness :
    getKey (upload_gcs_json wClient "bkt" "blob.json" "p" "d" "t"
        true true false (some "bad.json") true [] []).config_params "schema" = none
    ∧ (upload_gcs_json wClient "bkt" "blob.json" "p" "d" "t"
        true true false (some "bad.json") true [] []).ret =
      (upload_gcs_json wClient "bkt" "blob.json" "p" "d" "t"
        true true false none true [] []).ret
    ∧ (upload_gcs_json wClient "bkt" "blob.json" "p" "d" "t"
        true true false (some "bad.json") true [] []).loadCalls =
      (upload_gcs_json wClient "bkt" "blob.json" "p" "d" "t"
        true true false none true [] []).loadCalls :=
  upload_gcs_json_schema_parse_failure wClient "bkt" "blob.json" "p" "d" "t"
    true true false true [] [] "bad.json" (.other "parse failure") rfl rfl

/-- Claim C5: with `await_result` false, `query` returns `None`
immediately after submitting and its entire outcome is independent of
the result set of the job (it never requests it); with `await_result` true it
returns a list of row dicts whose length equals the number of result
rows and whose keys are the column names of the result schema. -/
theorem query_await_modes (c : BQClient) (q : String) (qc : ConfigDict) :
    ((query c q qc false).ret = .ok none
      ∧ ∀ c' : BQClient, query c q qc false = query c' q qc false)
    ∧ ∀ rs : ResultSet,
        (c.query q (if qc.isEmpty then none else some qc)).result = .ok rs →
        rs.schema.Nodup →
        (∀ row ∈ rs.rows, row.length = rs.schema.length) →
        (query c q qc true).ret = .ok (some (rowsToJson rs))
          ∧ (rowsToJson rs).length = rs.rows.length
          ∧ ∀ d ∈ rowsToJson rs, keysOf d = rs.schema := by
  refine ⟨⟨rfl, fun c' => rfl⟩, ?_⟩
  intro rs hres hnd hlen
  simp only [List.isEmpty_eq_true] at hres
  refine ⟨?_, ?_, ?_⟩
  · simp [query, hres]
  · simp [rowsToJson]
  · intro d hd
    simp only [rowsToJson, List.mem_map] at hd
    obtain ⟨vals, hv, rfl⟩ := hd
    exact keysOf_rowDict rs.schema vals hnd (hlen vals hv)

/-- Witness for C5: on the concrete handle the awaited query returns the
one result row as a dict keyed by the column names of the schema. -/
theorem query_await_modes_witness :
    (query wClient "SELECT 1" [] true).ret = .ok (some (rowsToJson wResultSet))
    ∧ (rowsToJson wResultSet).length = wResultSet.rows.length
    ∧ ∀ d ∈ rowsToJson wResultSet, keysOf d = wResultSet.schema :=
  (query_await_modes wClient "SELECT 1" []).2 wResultSet rfl
    (by decide) (by decide)

/-- Claim C6: with `await_result` false and no `priority` key in the
caller-supplied mapping, the assembled query config contains
`priority = "BATCH"`; and the config object passed to the handle is
built from the mapping exactly when the mapping is non-empty, otherwise
no explicit config is submitted. -/
theorem query_batch_priority (c : BQClient) (q : String)
    (query_config : ConfigDict)
    (hnp : hasKey query_config "priority" = false) :
    getKey (query c q query_config false).query_config "priority" =
      some (.str "BATCH")
    ∧ ∀ (qc : ConfigDict) (await_result : Bool),
        (query c q qc await_result).configPassed =
          if (query c q qc await_result).query_config.isEmpty then none
          else some (query c q qc await_result).query_config := by
  constructor
  · simp [query, hnp, getKey_setKey_self]
  · intro qc await_result
    cases await_result with
    | false => rfl
    | true =>
        cases hq : (c.query q (if qc.isEmpty then none else some qc)).result with
        | ok rs =>
            simp only [List.isEmpty_eq_true] at hq
            simp [query, hq]
        | error e2 =>
            simp only [List.isEmpty_eq_true] at hq
            simp [query, hq]

/-- Witness for C6: a priority-less config gets `priority = "BATCH"`
when not awaiting, and the config passed to the handle follows the
non-emptiness rule at a concrete call. -/
theorem query_batch_priority_witness :
    getKey (query wClient "SELECT 1" [("x", CValue.str "y")] false).query_config
      "priority" = some (.str "BATCH")
    ∧ (query wClient "SELECT 1" [] true).configPassed =
        (if (query wClient "SELECT 1" [] true).query_config.isEmpty then none
         else some (query wClient "SELECT 1" [] true).query_config) :=
  ⟨(query_batch_priority wClient "SELECT 1" [("x", CValue.str "y")] rfl).1,
    (query_batch_priority wClient "SELECT 1" [("x", CValue.str "y")] rfl).2 [] true⟩

/-- Claim C9: the caller-supplied mappings are mutated in place rather
than copied, so with the shared mutable default arguments of Python a key set
during one call that used the defaults persists into later default-using
calls: a schema parsed in one upload shows up in the assembled config of
the next upload, the `source_uris` of the first upload stays in the shared
`job_params`, and the `"BATCH"` priority set by a non-awaited query makes
a later awaited default-config query pass a non-empty config carrying
that priority. -/
theorem default_params_mutation_leak (c : BQClient)
    (bucket1 blob1 bucket2 blob2 bq_project dataset table : String)
    (p : String) (s : Schema) (q1 q2 : String)
    (hs : c.schema_from_json p = .ok s) :
    getKey ((upload_gcs_json_call c bucket2 blob2 bq_project dataset table
        true true false none true
        (upload_gcs_json_call c bucket1 blob1 bq_project dataset table
          true true false (some p) true
          { config_params := [], job_params := [] }).2).1.config_params)
      "schema" = some (.schema s)
    ∧ getKey ((upload_gcs_json_call c bucket1 blob1 bq_project dataset table
        true true false (some p) true
        { config_params := [], job_params := [] }).2.job_params) "source_uris" =
      some (.str ("gs://" ++ bucket1 ++ "/" ++ blob1))
    ∧ getKey ((query_call c q2 true (query_call c q1 false []).2).1.query_config)
        "priority" = some (.str "BATCH")
    ∧ (query_call c q2 true (query_call c q1 false []).2).1.configPassed =
      some ((query_call c q2 true (query_call c q1 false []).2).1.query_config) := by
  have hst : (query_call c q1 false []).2 = [("priority", CValue.str "BATCH")] := rfl
  refine ⟨?_, ?_, ?_, ?_⟩
  · simp only [upload_gcs_json_call, upload_config_params_eq]
    rw [getKey_assembleConfig_of_ne c true true false none _ "schema"
        (by decide) (by decide) (by decide) (by decide)]
    simp only [buildSchemaStep]
    rw [getKey_assembleConfig_of_ne c true true false (some p) [] "schema"
        (by decide) (by decide) (by decide) (by decide)]
    simp [buildSchemaStep, hs, getKey_setKey_self]
  · simp only [upload_gcs_json_call]
    exact upload_source_uris c bucket1 blob1 bq_project dataset table
      true true false (some p) true [] []
  · rw [hst]
    cases hq : (c.query q2 (some [("priority", CValue.str "BATCH")])).result with
    | ok rs => simp [query_call, query, hq, getKey, setKey]
    | error e2 => simp [query_call, query, hq, getKey, setKey]
  · rw [hst]
    cases hq : (c.query q2 (some [("priority", CValue.str "BATCH")])).result with
    | ok rs => simp [query_call, query, hq]
    | error e2 => simp [query_call, query, hq]

/-- Witness for C9: on the concrete handle, the schema parsed from
`good.json` in the first default-using upload is still in the assembled
config of the second default-using upload, the source URI of the first upload
persists in the shared `job_params`, and the batch priority set by a
non-awaited query is passed along by a later awaited query. -/
theorem default_params_mutation_leak_witness :
    getKey ((upload_gcs_json_call wClient "b2" "o2" "p" "d" "t"
        true true false none true
        (upload_gcs_json_call wClient "b1" "o1" "p" "d" "t"
          true true false (some "good.json") true
          { config_params := [], job_params := [] }).2).1.config_params)
      "schema" = some (.schema ["x"])
    ∧ getKey ((upload_gcs_json_call wClient "b1" "o1" "p" "d" "t"
        true true false (some "good.json") true
        { config_params := [], job_params := [] }).2.job_params) "source_uris" =
      some (.str ("gs://" ++ "b1" ++ "/" ++ "o1"))
    ∧ getKey ((query_call wClient "q2" true
        (query_call wClient "q1" false []).2).1.query_config)
        "priority" = some (.str "BATCH")
    ∧ (query_call wClient "q2" true
        (query_call wClient "q1" false []).2).1.configPassed =
      some ((query_call wClient "q2" true
        (query_call wClient "q1" false []).2).1.query_config) :=
  default_params_mutation_leak wClient "b1" "o1" "b2" "o2" "p" "d" "t"
    "good.json" ["x"] "q1" "q2" rfl

end BQ
